import Mathlib

/-!
# Verification of the SendSeven "Login with SendSeven" OAuth2/OIDC example

Shallow embedding of `src/login-with-sendseven/python/app.py` (Flask relying
party implementing the OAuth2 Authorization Code + PKCE flow) and proofs about
its behaviour.

Network effects (token endpoint, userinfo, discovery, JWKS fetch, revocation)
are modelled as explicit environment values handed to each handler; the Flask
session dictionary is modelled as a record of its five keys; the global
`JWKS_CACHE` dictionary is threaded explicitly.  The RS256 signature check
performed by `jose.jwt.decode` is abstracted as a boolean predicate carried by
the token; all other checks (issuer, audience, expiry, nonce, key lookup) are
embedded directly from the code.
-/

namespace SendSeven

/-! ## PKCE helpers: `generate_code_challenge`

`generate_code_challenge` in the source is
`base64.urlsafe_b64encode(hashlib.sha256(verifier.encode("utf-8")).digest()).rstrip(b"=")`.
The hash function is a library call identical on the code side and in the
spec formula, so it is a parameter `H`; the base64 alphabet and chunk
encoding follow RFC 4648 (the definition of the Python function `base64.urlsafe_b64encode`).
-/

/-- URL-safe base64 alphabet (RFC 4648 §5), as used by `base64.urlsafe_b64encode`. -/
def b64Alphabet : List Char :=
  "ABCDEFGHIJKLMNOPQRSTUVWXYZabcdefghijklmnopqrstuvwxyz0123456789-_".data

/-- The alphabet character for a 6-bit group. -/
def b64Char (n : Nat) : Char := b64Alphabet.getD (n % 64) 'A'

/-- Padded URL-safe base64 encoding of a byte list (Python `base64.urlsafe_b64encode`). -/
def b64PadChunks : List Nat → List Char
  | b1 :: b2 :: b3 :: rest =>
      b64Char (b1 / 4) :: b64Char ((b1 % 4) * 16 + b2 / 16) ::
      b64Char ((b2 % 16) * 4 + b3 / 64) :: b64Char (b3 % 64) :: b64PadChunks rest
  | [b1, b2] =>
      [b64Char (b1 / 4), b64Char ((b1 % 4) * 16 + b2 / 16), b64Char ((b2 % 16) * 4), '=']
  | [b1] =>
      [b64Char (b1 / 4), b64Char ((b1 % 4) * 16), '=', '=']
  | [] => []

/-- Unpadded URL-safe base64 encoding of a byte list: `base64url_no_pad` of the spec. -/
def b64NoPadChunks : List Nat → List Char
  | b1 :: b2 :: b3 :: rest =>
      b64Char (b1 / 4) :: b64Char ((b1 % 4) * 16 + b2 / 16) ::
      b64Char ((b2 % 16) * 4 + b3 / 64) :: b64Char (b3 % 64) :: b64NoPadChunks rest
  | [b1, b2] =>
      [b64Char (b1 / 4), b64Char ((b1 % 4) * 16 + b2 / 16), b64Char ((b2 % 16) * 4)]
  | [b1] =>
      [b64Char (b1 / 4), b64Char ((b1 % 4) * 16)]
  | [] => []

/-- Strip the trailing run of `=` characters (Python `bytes.rstrip(b"=")`). -/
def rstripEq : List Char → List Char
  | [] => []
  | c :: l =>
      let r := rstripEq l
      if r.isEmpty then (if c == '=' then [] else [c]) else c :: r

/-- UTF-8 bytes of a string (Python `str.encode("utf-8")`). -/
def utf8Bytes (s : String) : List Nat := s.toUTF8.data.toList.map (fun b => b.toNat)

/-- Definition of `generate_code_challenge` from the source, with the SHA-256 digest
(a library call) abstracted as the parameter `H`:
`base64.urlsafe_b64encode(H(verifier.encode("utf-8"))).rstrip(b"=")`. -/
def generate_code_challenge (H : List Nat → List Nat) (verifier : String) : String :=
  ⟨rstripEq (b64PadChunks (H (utf8Bytes verifier)))⟩

/-- Formula `base64url_no_pad(digest)` from the spec. -/
def base64url_no_pad (digest : List Nat) : String :=
  ⟨b64NoPadChunks digest⟩

/-! ## JWKS cache (`JWKS_CACHE` and `get_jwks`) -/

/-- A JSON Web Key; only the `kid` field is inspected by the code. -/
structure Jwk where
  kid : Option String
  deriving DecidableEq, Repr

/-- The module-level `JWKS_CACHE = {"keys": [], "fetched_at": 0}`. -/
structure JwksCache where
  keys : List Jwk
  fetched_at : Nat
  deriving DecidableEq, Repr

/-- Result of a `get_jwks` call: the returned keys (or the exception raised by
the fetch), the updated global cache, and whether an HTTP request was issued. -/
structure GetJwksOut where
  result : Except String (List Jwk)
  cache : JwksCache
  fetched : Bool
  deriving Repr

/-- Function `get_jwks(jwks_uri)`: refreshes the module-level cache only when more than
3600 seconds have passed since `fetched_at`; otherwise serves the cached keys
without issuing a request.  `fetch` is the network, indexed by the URI fetched. -/
def get_jwks (jwks_uri : String) (cache : JwksCache) (now : Nat)
    (fetch : String → Except String (List Jwk)) : GetJwksOut :=
  if cache.fetched_at + 3600 < now then
    match fetch jwks_uri with
    | .error e => ⟨.error e, cache, true⟩
    | .ok ks => ⟨.ok ks, ⟨ks, now⟩, true⟩
  else
    ⟨.ok cache.keys, cache, false⟩

/-! ## ID-token verification (`verify_id_token`) -/

/-- The claims of an ID token payload, as inspected by `jose.jwt.decode` and by
`verify_id_token` (`nonce` is read with `claims.get("nonce")`, hence optional). -/
structure Claims where
  iss : String
  aud : String
  exp : Nat
  nonce : Option String
  deriving DecidableEq, Repr

/-- An ID token: the `kid` from its unverified header, its payload claims, and
an abstraction of RS256 signature validity against a given key. -/
structure IdToken where
  kid : Option String
  claims : Claims
  sigOk : Jwk → Bool

/-- The distinct failure modes of `verify_id_token` (all raised as `JWTError`
in the source, distinguishable only by message). -/
inductive VerifyError where
  | discovery (msg : String)
  | jwksFetchFailed (msg : String)
  | noMatchingKey (kid : Option String)
  | badSignature
  | expired
  | badAudience
  | badIssuer
  | invalidNonce
  deriving DecidableEq, Repr

/-- The message carried by each `JWTError`. -/
def VerifyError.message : VerifyError → String
  | .discovery m => m
  | .jwksFetchFailed m => m
  | .noMatchingKey k => "No matching key found for kid: " ++ k.getD "None"
  | .badSignature => "Signature verification failed."
  | .expired => "Signature has expired."
  | .badAudience => "Invalid audience"
  | .badIssuer => "Invalid issuer"
  | .invalidNonce => "Invalid nonce"

/-- The OIDC discovery document fields used by the code. -/
structure OidcConfig where
  issuer : String
  jwks_uri : String
  deriving DecidableEq, Repr

/-- Model of `jose.jwt.decode(id_token, key, algorithms=["RS256"], audience=CLIENT_ID,
issuer=...)`: signature, expiry, audience and issuer checks; on success the
payload claims are returned. -/
def jwtDecode (tok : IdToken) (key : Jwk) (audience issuer : String) (now : Nat) :
    Except VerifyError Claims :=
  if !(tok.sigOk key) then .error .badSignature
  else if tok.claims.exp < now then .error .expired
  else if tok.claims.aud != audience then .error .badAudience
  else if tok.claims.iss != issuer then .error .badIssuer
  else .ok tok.claims

/-- The external world seen by `verify_id_token`: the discovery fetch, the JWKS
fetch (by URI), and the current time. -/
structure VerifyEnv where
  oidcConfig : Except String OidcConfig
  jwksFetch : String → Except String (List Jwk)
  now : Nat

/-- Result of `verify_id_token`: the claims or the raised error, the updated
global JWKS cache, and whether a JWKS HTTP request was issued. -/
structure VerifyOut where
  result : Except VerifyError Claims
  cache : JwksCache
  fetched : Bool

/-- Boolean success test for an `Except` result. -/
def isOk {ε α : Type} : Except ε α → Bool
  | .ok _ => true
  | .error _ => false

/-- Function `verify_id_token(id_token, nonce)` from the source: discovery, JWKS lookup
by `kid` (no forced refresh on a miss), `jwt.decode`, then the nonce check
`claims.get("nonce") != nonce`. -/
def verify_id_token (id_token : IdToken) (nonce : Option String) (cache : JwksCache)
    (env : VerifyEnv) (client_id : String) : VerifyOut :=
  match env.oidcConfig with
  | .error e => ⟨.error (.discovery e), cache, false⟩
  | .ok cfg =>
    let g := get_jwks cfg.jwks_uri cache env.now env.jwksFetch
    match g.result with
    | .error e => ⟨.error (.jwksFetchFailed e), g.cache, g.fetched⟩
    | .ok keys =>
      match keys.find? (fun k => k.kid == id_token.kid) with
      | none => ⟨.error (.noMatchingKey id_token.kid), g.cache, g.fetched⟩
      | some key =>
        match jwtDecode id_token key client_id cfg.issuer env.now with
        | .error e => ⟨.error e, g.cache, g.fetched⟩
        | .ok claims =>
          if claims.nonce != nonce then ⟨.error .invalidNonce, g.cache, g.fetched⟩
          else ⟨.ok claims, g.cache, g.fetched⟩

/-! ## Session, callback, refresh, logout -/

/-- The token-endpoint JSON response / stored token set
`{access_token, token_type, expires_in, refresh_token?, id_token?, scope}`. -/
structure TokenResponse where
  access_token : String
  token_type : String
  expires_in : Nat
  scope : String
  refresh_token : Option String
  id_token : Option IdToken

/-- The Flask session dictionary, restricted to the five keys the app uses. -/
structure Session where
  oauth_state : Option String
  oauth_nonce : Option String
  oauth_code_verifier : Option String
  user : Option String
  tokens : Option TokenResponse

/-- Result of `session.clear()`: every key absent. -/
def emptySession : Session := ⟨none, none, none, none, none⟩

/-- Python truthiness of an optional string: `None` and `""` are falsy. -/
def truthy : Option String → Bool
  | none => false
  | some s => !s.isEmpty

/-- Lookup of the refresh token: `tokens.get("refresh_token")` where `tokens` defaults
to the empty dictionary when absent. -/
def sessionRefreshToken (s : Session) : Option String :=
  (s.tokens.map TokenResponse.refresh_token).getD none

/-- The query parameters the callback handler reads. -/
structure CallbackArgs where
  error : Option String
  error_description : Option String
  code : Option String
  state : Option String

/-- What a route handler returns: a rendered error template (identified by its
`error` code and description) or a redirect. -/
inductive PageResult where
  | errorPage (error : String) (description : String)
  | redirectHome
  | redirectLogin
  deriving DecidableEq, Repr

/-- The external world seen by one callback request: the client id, the
token-endpoint POST result, the userinfo GET result, the environment of the verifier, and the global JWKS cache at request time. -/
structure CallbackEnv where
  client_id : String
  tokenExchange : Except String TokenResponse
  userinfo : Except String String
  verifyEnv : VerifyEnv
  jwksCache : JwksCache

/-- Result of a callback request: the session afterwards, the page returned,
whether the token-endpoint POST was issued, whether `verify_id_token` was
called, and the global JWKS cache afterwards. -/
structure CallbackOut where
  session : Session
  result : PageResult
  tokenClientCalled : Bool
  verifyCalled : Bool
  jwksCache : JwksCache

/-- Tail of the callback after token exchange and (possible) ID-token
verification: userinfo fetch, session commit, and FlowState cleanup. -/
def finishCallback (s : Session) (env : CallbackEnv) (tokens : TokenResponse)
    (verified : Bool) (cache : JwksCache) : CallbackOut :=
  match env.userinfo with
  | .error e =>
      ⟨s, .errorPage "userinfo_failed" ("Failed to fetch user info: " ++ e),
        true, verified, cache⟩
  | .ok user_info =>
      ⟨{ s with
          user := some user_info,
          tokens := some tokens,
          oauth_state := none,
          oauth_nonce := none,
          oauth_code_verifier := none },
        .redirectHome, true, verified, cache⟩

/-- The `/callback` handler, line by line from the source: provider error
check, `code`/`state` presence check, state (CSRF) validation, code exchange,
ID-token verification when `id_token` is present, userinfo fetch, session
commit, FlowState cleanup. -/
def callback (args : CallbackArgs) (s : Session) (env : CallbackEnv) : CallbackOut :=
  match args.error with
  | some err =>
      ⟨s, .errorPage err (args.error_description.getD "Unknown error"),
        false, false, env.jwksCache⟩
  | none =>
    if !truthy args.code || !truthy args.state then
      ⟨s, .errorPage "invalid_request" "Missing code or state parameter",
        false, false, env.jwksCache⟩
    else
      if !truthy s.oauth_state || (some (args.state.getD "") != s.oauth_state) then
        ⟨s, .errorPage "invalid_state" "State mismatch - possible CSRF attack",
          false, false, env.jwksCache⟩
      else
        match env.tokenExchange with
        | .error e =>
            ⟨s, .errorPage "token_exchange_failed"
                ("Failed to exchange code for tokens: " ++ e),
              true, false, env.jwksCache⟩
        | .ok tokens =>
          match tokens.id_token with
          | some tok =>
            match verify_id_token tok s.oauth_nonce env.jwksCache env.verifyEnv
                env.client_id with
            | ⟨.error e, cache, _⟩ =>
                ⟨s, .errorPage "id_token_verification_failed"
                    ("Failed to verify ID token: " ++ e.message),
                  true, true, cache⟩
            | ⟨.ok _, cache, _⟩ => finishCallback s env tokens true cache
          | none => finishCallback s env tokens false env.jwksCache

/-- The `scope` sent by `/login` in the authorization request. -/
def authorizationScope : String := "openid profile email offline_access"

/-- The external world seen by one `/refresh` request. -/
structure RefreshEnv where
  refreshResult : Except String TokenResponse

/-- The `/refresh` handler: `login_required` gate, stored refresh token
lookup, refresh-grant POST, wholesale replacement of `session["tokens"]`;
on POST failure the session is cleared. -/
def refresh (s : Session) (env : RefreshEnv) : Session × PageResult :=
  if s.user.isNone then (s, .redirectLogin)
  else
    if !truthy (sessionRefreshToken s) then
      (s, .errorPage "no_refresh_token"
          "No refresh token available. Login again with offline_access scope.")
    else
      match env.refreshResult with
      | .error e =>
          (emptySession, .errorPage "refresh_failed"
              ("Failed to refresh token: " ++ e ++ ". Please login again."))
      | .ok new_tokens => ({ s with tokens := some new_tokens }, .redirectHome)

/-- The external world seen by one `/logout` request: the revocation POST
outcome, either an HTTP status code or a transport exception. -/
structure LogoutEnv where
  revokeResult : Except String Nat

/-- Result of a `/logout` request. -/
structure LogoutOut where
  session : Session
  result : PageResult
  revokeAttempted : Bool

/-- The `/logout` handler: best-effort revocation POST when a refresh token is
stored (its status is never inspected and a transport exception is caught),
then `session.clear()` and redirect — unconditionally. -/
def logout (s : Session) (_env : LogoutEnv) : LogoutOut :=
  let rt := sessionRefreshToken s
  ⟨emptySession, .redirectHome, truthy rt⟩

/-! ## Theorems: PKCE code challenge (C9) -/

theorem b64Char_ne_pad (n : Nat) : b64Char n ≠ '=' := by
  have hlt : n % 64 < 64 := Nat.mod_lt _ (by decide)
  have h : ∀ m, m < 64 → b64Alphabet.getD m 'A' ≠ '=' := by decide
  exact h _ hlt

theorem rstripEq_cons_of_ne {c : Char} (l : List Char) (h : c ≠ '=') :
    rstripEq (c :: l) = c :: rstripEq l := by
  show (let r := rstripEq l; if r.isEmpty then (if c == '=' then [] else [c]) else c :: r) =
    c :: rstripEq l
  have hc : (c == '=') = false := by
    simpa using h
  cases hr : (rstripEq l).isEmpty with
  | true =>
      have : rstripEq l = [] := by simpa [List.isEmpty_iff] using hr
      simp [hr, hc, this]
  | false => simp [hr]

theorem rstripEq_strips_padding :
    ∀ bs : List Nat, rstripEq (b64PadChunks bs) = b64NoPadChunks bs
  | [] => rfl
  | [b1] => by
      show rstripEq [b64Char (b1 / 4), b64Char ((b1 % 4) * 16), '=', '='] = _
      rw [rstripEq_cons_of_ne _ (b64Char_ne_pad _), rstripEq_cons_of_ne _ (b64Char_ne_pad _)]
      rfl
  | [b1, b2] => by
      show rstripEq [b64Char (b1 / 4), b64Char ((b1 % 4) * 16 + b2 / 16),
        b64Char ((b2 % 16) * 4), '='] = _
      rw [rstripEq_cons_of_ne _ (b64Char_ne_pad _), rstripEq_cons_of_ne _ (b64Char_ne_pad _),
        rstripEq_cons_of_ne _ (b64Char_ne_pad _)]
      rfl
  | b1 :: b2 :: b3 :: rest => by
      show rstripEq (b64Char (b1 / 4) :: b64Char ((b1 % 4) * 16 + b2 / 16) ::
        b64Char ((b2 % 16) * 4 + b3 / 64) :: b64Char (b3 % 64) :: b64PadChunks rest) = _
      rw [rstripEq_cons_of_ne _ (b64Char_ne_pad _), rstripEq_cons_of_ne _ (b64Char_ne_pad _),
        rstripEq_cons_of_ne _ (b64Char_ne_pad _), rstripEq_cons_of_ne _ (b64Char_ne_pad _),
        rstripEq_strips_padding rest]
      rfl

/-- C9: for every code verifier `v` (and with the SHA-256 digest abstracted as
the function `H`, identical on the code side and in the spec formula),
`generate_code_challenge` equals the unpadded URL-safe base64 encoding of the
digest of the UTF-8 bytes of `v`, deterministically. -/
theorem generate_code_challenge_spec (H : List Nat → List Nat) (v : String) :
    generate_code_challenge H v = base64url_no_pad (H (utf8Bytes v)) :=
  congrArg String.mk (rstripEq_strips_padding _)

/-! ## Theorems: JWKS cache and ID-token verification (C10, C7, C6) -/

/-- C10: within the 3600-second TTL window, `get_jwks` makes no network
request and returns the cached key list with the cache unchanged, and its
result is independent of the `jwks_uri` argument (keys fetched for one URI are
served for any other URI until the TTL expires); a fetch happens only when
more than 3600 seconds have elapsed since the last successful fetch. -/
theorem get_jwks_serves_cache_within_ttl (uri uri' : String) (cache : JwksCache)
    (now : Nat) (fetch : String → Except String (List Jwk))
    (h : ¬ (cache.fetched_at + 3600 < now)) :
    get_jwks uri cache now fetch = ⟨.ok cache.keys, cache, false⟩ ∧
    get_jwks uri cache now fetch = get_jwks uri' cache now fetch := by
  unfold get_jwks
  simp [h]

theorem get_jwks_serves_cache_within_ttl_witness :
    get_jwks "https://a.example/jwks" ⟨[⟨some "k1"⟩], 100⟩ 200 (fun _ => .error "down") =
      ⟨.ok [⟨some "k1"⟩], ⟨[⟨some "k1"⟩], 100⟩, false⟩ ∧
    get_jwks "https://a.example/jwks" ⟨[⟨some "k1"⟩], 100⟩ 200 (fun _ => .error "down") =
      get_jwks "https://b.example/jwks" ⟨[⟨some "k1"⟩], 100⟩ 200 (fun _ => .error "down") :=
  get_jwks_serves_cache_within_ttl _ _ _ _ _ (by decide)

theorem jwtDecode_ok_claims {tok : IdToken} {key : Jwk} {a i : String} {n : Nat}
    {c : Claims} (h : jwtDecode tok key a i n = .ok c) : c = tok.claims := by
  unfold jwtDecode at h
  split_ifs at h
  all_goals simp_all

/-- C7: `verify_id_token` never returns claims when the `nonce` claim of the token
is not exactly equal to the expected nonce, the absent-nonce case included: it
raises on every such token, whichever check fails first. -/
theorem verify_id_token_rejects_nonce_mismatch (tok : IdToken) (nonce : Option String)
    (cache : JwksCache) (env : VerifyEnv) (client_id : String)
    (h : tok.claims.nonce ≠ nonce) :
    isOk (verify_id_token tok nonce cache env client_id).result = false := by
  unfold verify_id_token
  split
  · rfl
  · dsimp only
    split
    · rfl
    · split
      · rfl
      · split
        · rfl
        · rename_i claims hdec
          rw [jwtDecode_ok_claims hdec] at *
          simp [bne_iff_ne, h, isOk]

theorem verify_id_token_rejects_nonce_mismatch_witness :
    isOk (verify_id_token ⟨some "k1", ⟨"https://iss", "cid", 9999, some "N1"⟩, fun _ => true⟩
      (some "N2") ⟨[⟨some "k1"⟩], 100⟩
      ⟨.ok ⟨"https://iss", "https://a.example/jwks"⟩, fun _ => .ok [], 50⟩ "cid").result =
      false :=
  verify_id_token_rejects_nonce_mismatch _ _ _ _ _ (by decide)

/-- A token whose header `kid` is absent from the TTL-fresh cached key set:
the cache holds only `k-old`, while a refresh of the JWKS endpoint would
return `k-new`, the key the token was signed with. -/
def rotatedKeyToken : IdToken := ⟨some "k-new", ⟨"https://iss", "cid", 9999, some "N1"⟩, fun _ => true⟩

def staleKeyCache : JwksCache := ⟨[⟨some "k-old"⟩], 1000⟩

def rotatedKeyEnv : VerifyEnv :=
  ⟨.ok ⟨"https://iss", "https://a.example/jwks"⟩, fun _ => .ok [⟨some "k-new"⟩], 1500⟩

/-- C6 counterexample: with the cached key set TTL-fresh and missing the
`kid` of the token, `verify_id_token` raises the generic `JWTError` immediately and
performs no JWKS fetch at all — even though the one forced refresh the claim
requires would have returned exactly the missing key. -/
theorem verify_no_forced_refresh_cex :
    (verify_id_token rotatedKeyToken (some "N1") staleKeyCache rotatedKeyEnv "cid").result =
      .error (.noMatchingKey (some "k-new")) ∧
    (verify_id_token rotatedKeyToken (some "N1") staleKeyCache rotatedKeyEnv "cid").fetched =
      false ∧
    rotatedKeyEnv.jwksFetch "https://a.example/jwks" = .ok [⟨some "k-new"⟩] ∧
    ¬ (staleKeyCache.fetched_at + 3600 < rotatedKeyEnv.now) :=
  ⟨rfl, rfl, rfl, by decide⟩

/-- C6 amended: when ID-token verification encounters a `kid` absent from the
cached signing-key set and the cache TTL has not expired, it performs no forced
refresh of the key set: it fails immediately with the generic
`JWTError("No matching key found for kid: ...")`, issuing no JWKS request. -/
theorem verify_unknown_kid_fails_without_refresh (tok : IdToken) (nonce : Option String)
    (cache : JwksCache) (env : VerifyEnv) (client_id : String) (cfg : OidcConfig)
    (hcfg : env.oidcConfig = .ok cfg)
    (httl : ¬ (cache.fetched_at + 3600 < env.now))
    (hkid : cache.keys.find? (fun k => k.kid == tok.kid) = none) :
    (verify_id_token tok nonce cache env client_id).result =
      .error (.noMatchingKey tok.kid) ∧
    (verify_id_token tok nonce cache env client_id).fetched = false := by
  have hg : get_jwks cfg.jwks_uri cache env.now env.jwksFetch =
      ⟨.ok cache.keys, cache, false⟩ := by
    unfold get_jwks
    simp [httl]
  unfold verify_id_token
  rw [hcfg]
  dsimp only
  rw [hg]
  dsimp only
  rw [hkid]
  exact ⟨rfl, rfl⟩

theorem verify_unknown_kid_fails_without_refresh_witness :
    (verify_id_token rotatedKeyToken (some "N2") staleKeyCache rotatedKeyEnv "cid").result =
      .error (.noMatchingKey (some "k-new")) ∧
    (verify_id_token rotatedKeyToken (some "N2") staleKeyCache rotatedKeyEnv "cid").fetched =
      false :=
  verify_unknown_kid_fails_without_refresh _ _ _ _ _ _ rfl (by decide) rfl

/-! ## Callback helper lemmas -/

/-- A callback that ends in the success redirect has removed the FlowState
keys from the session. -/
theorem callback_success_clears_flowstate (a : CallbackArgs) (s : Session)
    (env : CallbackEnv) :
    (callback a s env).result = .redirectHome →
      (callback a s env).session.oauth_state = none ∧
      (callback a s env).session.oauth_nonce = none ∧
      (callback a s env).session.oauth_code_verifier = none := by
  unfold callback finishCallback
  split
  · simp
  · split
    · simp
    · split
      · simp
      · split
        · simp
        · split
          · split
            · simp
            · split
              · simp
              · intro _
                exact ⟨rfl, rfl, rfl⟩
          · split
            · simp
            · intro _
              exact ⟨rfl, rfl, rfl⟩

/-- On a session holding no truthy `oauth_state`, every callback fails before
the token-endpoint POST and leaves the session unchanged. -/
theorem callback_without_stored_state (a : CallbackArgs) (s : Session)
    (env : CallbackEnv) (h : truthy s.oauth_state = false) :
    (callback a s env).result ≠ .redirectHome ∧
    (callback a s env).tokenClientCalled = false ∧
    (callback a s env).session = s := by
  unfold callback
  split
  · exact ⟨by simp, rfl, rfl⟩
  · split
    · exact ⟨by simp, rfl, rfl⟩
    · simp [h]

/-! ## Theorems: CSRF state check (C2) and FlowState single use (C3) -/

/-- C2: a callback whose `state` does not match the stored `oauth_state`
(including a stored value that is absent or empty) fails with the
`invalid_state` CSRF error, never issues the token-endpoint POST, and leaves
the session unchanged. -/
theorem callback_state_mismatch_is_csrf_error (a : CallbackArgs) (s : Session)
    (env : CallbackEnv)
    (herr : a.error = none)
    (hcode : truthy a.code = true)
    (hstate : truthy a.state = true)
    (hmm : truthy s.oauth_state = false ∨ s.oauth_state ≠ some (a.state.getD "")) :
    (callback a s env).result =
      .errorPage "invalid_state" "State mismatch - possible CSRF attack" ∧
    (callback a s env).tokenClientCalled = false ∧
    (callback a s env).session = s := by
  rcases hmm with h | h
  · simp [callback, herr, hcode, hstate, h]
  · have hb : (some (a.state.getD "") != s.oauth_state) = true := by
      simp only [bne_iff_ne, ne_eq]
      exact fun e => h e.symm
    simp [callback, herr, hcode, hstate, hb]

def quietNet : VerifyEnv := ⟨.error "network down", fun _ => .error "network down", 0⟩

def mismatchEnv : CallbackEnv :=
  ⟨"cid", .error "unreachable", .error "unreachable", quietNet, ⟨[], 0⟩⟩

theorem callback_state_mismatch_is_csrf_error_witness :
    (callback ⟨none, none, some "abc", some "S2"⟩ ⟨some "S1", some "N1", some "V1", none, none⟩
      mismatchEnv).result =
      .errorPage "invalid_state" "State mismatch - possible CSRF attack" ∧
    (callback ⟨none, none, some "abc", some "S2"⟩ ⟨some "S1", some "N1", some "V1", none, none⟩
      mismatchEnv).tokenClientCalled = false ∧
    (callback ⟨none, none, some "abc", some "S2"⟩ ⟨some "S1", some "N1", some "V1", none, none⟩
      mismatchEnv).session = ⟨some "S1", some "N1", some "V1", none, none⟩ :=
  callback_state_mismatch_is_csrf_error _ _ _ rfl rfl rfl (Or.inr (by decide))

/-- A pending session as `/login` leaves it. -/
def pendingSession : Session := ⟨some "S1", some "N1", some "V1", none, none⟩

/-- A token response without an `id_token` field. -/
def bareTokens : TokenResponse :=
  ⟨"AT1", "Bearer", 3600, "openid profile email offline_access", some "RT1", none⟩

/-- An environment in which code exchange and userinfo succeed. -/
def happyEnv : CallbackEnv := ⟨"cid", .ok bareTokens, .ok "alice@example.com", quietNet, ⟨[], 0⟩⟩

/-- A callback request carrying the matching state. -/
def matchingArgs : CallbackArgs := ⟨none, none, some "abc", some "S1"⟩

/-- C3: after a callback completes successfully, the FlowState is gone from
the session, so a second callback presenting the same `state` fails, issues no
token-endpoint POST, and does not change the session (no re-authentication). -/
theorem callback_replay_with_consumed_state_fails (a a' : CallbackArgs) (s : Session)
    (env env' : CallbackEnv)
    (h : (callback a s env).result = .redirectHome)
    (_hs : a'.state = a.state) :
    (callback a s env).session.oauth_state = none ∧
    (callback a' (callback a s env).session env').result ≠ .redirectHome ∧
    (callback a' (callback a s env).session env').tokenClientCalled = false ∧
    (callback a' (callback a s env).session env').session =
      (callback a s env).session := by
  have h1 := callback_success_clears_flowstate a s env h
  have h2 := callback_without_stored_state a' (callback a s env).session env'
    (by rw [h1.1]; rfl)
  exact ⟨h1.1, h2.1, h2.2.1, h2.2.2⟩

theorem callback_replay_with_consumed_state_fails_witness :
    (callback matchingArgs pendingSession happyEnv).session.oauth_state = none ∧
    (callback matchingArgs (callback matchingArgs pendingSession happyEnv).session
      happyEnv).result ≠ .redirectHome ∧
    (callback matchingArgs (callback matchingArgs pendingSession happyEnv).session
      happyEnv).tokenClientCalled = false ∧
    (callback matchingArgs (callback matchingArgs pendingSession happyEnv).session
      happyEnv).session = (callback matchingArgs pendingSession happyEnv).session :=
  callback_replay_with_consumed_state_fails matchingArgs matchingArgs pendingSession
    happyEnv happyEnv rfl rfl

/-! ## Theorems: Principal creation and ID-token verification in the callback (C1) -/

/-- C1 counterexample: the authorization request always asks for the `openid`
scope, yet a callback whose token response omits `id_token` commits the
session user without any ID-token verification: `verify_id_token` is never
called and the login succeeds. -/
theorem principal_without_id_token_verification_cex :
    "openid ".data.isPrefixOf authorizationScope.data = true ∧
    happyEnv.tokenExchange = .ok bareTokens ∧
    bareTokens.id_token = none ∧
    (callback matchingArgs pendingSession happyEnv).result = .redirectHome ∧
    (callback matchingArgs pendingSession happyEnv).session.user =
      some "alice@example.com" ∧
    (callback matchingArgs pendingSession happyEnv).verifyCalled = false :=
  ⟨by decide, rfl, rfl, rfl, rfl, rfl⟩

/-- C1 amended: whenever a callback commits the session user and the token
response carries an `id_token`, that ID token passed `verify_id_token`
(signature, issuer, audience and nonce) against the stored session nonce —
but a token response without an `id_token` commits the user with no identity
verification at all, even though the authorization request always includes the
`openid` scope. -/
theorem principal_verified_when_id_token_present (a : CallbackArgs) (s : Session)
    (env : CallbackEnv) (tr : TokenResponse) (tok : IdToken)
    (hsucc : (callback a s env).result = .redirectHome)
    (htr : (callback a s env).session.tokens = some tr)
    (htok : tr.id_token = some tok) :
    (callback a s env).verifyCalled = true ∧
    isOk (verify_id_token tok s.oauth_nonce env.jwksCache env.verifyEnv
      env.client_id).result = true := by
  revert hsucc htr
  unfold callback finishCallback
  split
  · simp
  · split
    · simp
    · split
      · simp
      · split
        · simp
        · split
          · split
            · simp
            · split
              · simp
              · intro _ htr'
                simp only [Option.some.injEq] at htr'
                subst htr'
                simp_all [isOk]
          · split
            · simp
            · intro _ htr'
              simp only [Option.some.injEq] at htr'
              subst htr'
              simp_all

/-- A verifiable ID token: signed with the cached key `k1`, carrying the
session nonce `N1`, issuer and audience matching the environment. -/
def goodIdToken : IdToken :=
  ⟨some "k1", ⟨"https://iss", "cid", 9999, some "N1"⟩, fun _ => true⟩

/-- A token response that carries `goodIdToken`. -/
def idTokens : TokenResponse :=
  ⟨"AT1", "Bearer", 3600, "openid profile email offline_access", some "RT1", some goodIdToken⟩

/-- An environment in which exchange, verification and userinfo all succeed:
the JWKS cache is fresh and already holds `k1`. -/
def happyIdEnv : CallbackEnv :=
  ⟨"cid", .ok idTokens, .ok "alice@example.com",
    ⟨.ok ⟨"https://iss", "https://a.example/jwks"⟩, fun _ => .ok [], 50⟩,
    ⟨[⟨some "k1"⟩], 100⟩⟩

theorem principal_verified_when_id_token_present_witness :
    (callback matchingArgs pendingSession happyIdEnv).verifyCalled = true ∧
    isOk (verify_id_token goodIdToken pendingSession.oauth_nonce happyIdEnv.jwksCache
      happyIdEnv.verifyEnv happyIdEnv.client_id).result = true :=
  principal_verified_when_id_token_present matchingArgs pendingSession happyIdEnv
    idTokens goodIdToken rfl rfl rfl

/-! ## Theorems: FlowState destruction (C4) -/

/-- An environment in which the token-endpoint POST fails. -/
def failedExchangeEnv : CallbackEnv :=
  ⟨"cid", .error "500 Server Error", .ok "alice@example.com", quietNet, ⟨[], 0⟩⟩

/-- C4 counterexample: a callback that passes the state check but whose token
exchange fails leaves the whole FlowState (`oauth_state`, `oauth_nonce`,
`oauth_code_verifier`) in the session — it is not destroyed on failure, and a
later callback with the same state can consume it. -/
theorem flowstate_survives_failed_callback_cex :
    (callback matchingArgs pendingSession failedExchangeEnv).result =
      .errorPage "token_exchange_failed"
        "Failed to exchange code for tokens: 500 Server Error" ∧
    (callback matchingArgs pendingSession failedExchangeEnv).session.oauth_state =
      some "S1" ∧
    (callback matchingArgs pendingSession failedExchangeEnv).session.oauth_nonce =
      some "N1" ∧
    (callback matchingArgs pendingSession failedExchangeEnv).session.oauth_code_verifier =
      some "V1" ∧
    (callback matchingArgs pendingSession
      failedExchangeEnv).result ≠ .redirectHome :=
  ⟨rfl, rfl, rfl, rfl, by decide⟩

/-- C4 amended: the FlowState is removed from the session only when the
callback fully succeeds; every failing callback — state mismatch, missing
parameters, token-exchange failure, ID-token verification failure or
userinfo failure — leaves the session, FlowState included, unchanged. -/
theorem flowstate_destroyed_only_on_success (a : CallbackArgs) (s : Session)
    (env : CallbackEnv) :
    ((callback a s env).result ≠ .redirectHome ∧ (callback a s env).session = s) ∨
    ((callback a s env).result = .redirectHome ∧
      (callback a s env).session.oauth_state = none ∧
      (callback a s env).session.oauth_nonce = none ∧
      (callback a s env).session.oauth_code_verifier = none) := by
  unfold callback finishCallback
  split
  · exact Or.inl ⟨by simp, rfl⟩
  · split
    · exact Or.inl ⟨by simp, rfl⟩
    · split
      · exact Or.inl ⟨by simp, rfl⟩
      · split
        · exact Or.inl ⟨by simp, rfl⟩
        · split
          · split
            · exact Or.inl ⟨by simp, rfl⟩
            · split
              · exact Or.inl ⟨by simp, rfl⟩
              · exact Or.inr ⟨rfl, rfl, rfl, rfl⟩
          · split
            · exact Or.inl ⟨by simp, rfl⟩
            · exact Or.inr ⟨rfl, rfl, rfl, rfl⟩

/-! ## Theorems: refresh replaces the TokenSet wholesale (C5) -/

/-- An authenticated session holding a refresh token `RT1`. -/
def authedSession : Session := ⟨none, none, none, some "alice@example.com", some bareTokens⟩

/-- A refresh-grant response that omits the `refresh_token` field. -/
def refreshNoRT : TokenResponse := ⟨"AT2", "Bearer", 3600, "openid profile email", none, none⟩

/-- C5 counterexample: a successful refresh whose provider response omits
`refresh_token` leaves the session with no refresh token at all — the prior
refresh token `RT1` is lost, not retained. -/
theorem refresh_drops_prior_refresh_token_cex :
    sessionRefreshToken authedSession = some "RT1" ∧
    (refresh authedSession ⟨.ok refreshNoRT⟩).2 = .redirectHome ∧
    sessionRefreshToken (refresh authedSession ⟨.ok refreshNoRT⟩).1 = none :=
  ⟨rfl, rfl, rfl⟩

/-- C5 amended: a successful refresh stores the provider response wholesale as
the session TokenSet: afterwards the stored refresh token is exactly the
`refresh_token` field of the response, so when the response omits it the prior
refresh token is lost rather than retained. -/
theorem refresh_replaces_tokens_wholesale (s : Session) (env : RefreshEnv)
    (nt : TokenResponse)
    (hok : env.refreshResult = .ok nt)
    (hsucc : (refresh s env).2 = .redirectHome) :
    (refresh s env).1.tokens = some nt ∧
    sessionRefreshToken (refresh s env).1 = nt.refresh_token := by
  revert hsucc
  unfold refresh
  split
  · simp
  · split
    · simp_all
    · split
      · simp
      · intro _
        simp_all [sessionRefreshToken]

theorem refresh_replaces_tokens_wholesale_witness :
    (refresh authedSession ⟨.ok refreshNoRT⟩).1.tokens = some refreshNoRT ∧
    sessionRefreshToken (refresh authedSession ⟨.ok refreshNoRT⟩).1 =
      refreshNoRT.refresh_token :=
  refresh_replaces_tokens_wholesale _ _ _ rfl rfl

/-! ## Theorems: logout is never blocked by revocation (C8) -/

/-- C8: for every logout request the session is cleared and the user ends
logged out whatever the revocation POST returned — the handler never inspects
the revocation response and catches transport exceptions, so its outcome
cannot influence the result (the output is the same for any two revocation
outcomes); the revocation POST is attempted exactly when a refresh token is
stored. -/
theorem logout_always_clears_session (s : Session) (env env' : LogoutEnv) :
    (logout s env).session = emptySession ∧
    (logout s env).result = .redirectHome ∧
    logout s env = logout s env' ∧
    (logout s env).revokeAttempted = truthy (sessionRefreshToken s) :=
  ⟨rfl, rfl, rfl, rfl⟩

end SendSeven
